import Mathlib

/-!
Verification of the datagram classifier in `src/net/src/lib.rs` (crate `net`
of str0m): `MultiplexKind::try_from`, `DatagramRecv::try_from`,
`Receive::new` and `Receive::try_from<&Transmit>`.

Bytes are modelled as `Fin 256` (Rust `u8`), byte slices as `List Byte`.
A fallible Rust function is modelled with an outcome type that separates a
normal error return from a panic, because `MultiplexKind::try_from` indexes
`value[0]` (and, in one branch, `value[1]`) and a Rust out-of-bounds slice
index panics rather than returning an error.

The STUN message parser (`StunMessage::parse`, module `stun`) is an external
collaborator of this core; the development is parameterised over an arbitrary
parse function, so every theorem holds for every possible parser.
-/

abbrev Byte := Fin 256

/-- The four-way classification tag `MultiplexKind` (internal enum). -/
inductive MultiplexKind
  | Stun
  | Dtls
  | Rtp
  | Rtcp
deriving DecidableEq

/-- Outcome of `MultiplexKind::try_from`: a kind, the single
`io::Error` "Unknown datagram", or a panic from an out-of-bounds index. -/
inductive MKResult
  | ok (k : MultiplexKind)
  | unrecognized
  | panic
deriving DecidableEq

/-- `MultiplexKind::try_from(value: &[u8])`.

Mirrors the source exactly: it first evaluates `value[0]` (which panics on an
empty slice), takes `len = value.len()`, and then runs the ordered guard
chain.  In the RTP/RTCP branch it reads `value[1]` (in range because the
guard requires `len > 2`) and masks it with `0x7f`. -/
def multiplexKindTryFrom (value : List Byte) : MKResult :=
  match value with
  | [] => MKResult.panic
  | byte0 :: rest =>
    let len := (byte0 :: rest).length
    if byte0.val < 2 ∧ len ≥ 20 then
      MKResult.ok MultiplexKind.Stun
    else if byte0.val ≥ 20 ∧ byte0.val < 64 then
      MKResult.ok MultiplexKind.Dtls
    else if byte0.val ≥ 128 ∧ byte0.val < 192 ∧ len > 2 then
      match rest with
      | [] => MKResult.panic
      | byte1 :: _ =>
        let payload_type := byte1.val &&& 0x7f
        if payload_type < 64 then
          MKResult.ok MultiplexKind.Rtp
        else if payload_type ≥ 64 ∧ payload_type < 96 then
          MKResult.ok MultiplexKind.Rtcp
        else
          MKResult.ok MultiplexKind.Rtp
    else
      MKResult.unrecognized

/-- `NetError`: the crate's unified error sum.  `Stun` wraps a STUN parse
error; `Io` wraps the classifier's single `io::Error` ("Unknown datagram"). -/
inductive NetError (StunErr : Type)
  | Stun (e : StunErr)
  | Io
deriving DecidableEq

/-- Outcome of a fallible Rust function: `Ok`, `Err`, or a panic. -/
inductive RResult (ε α : Type)
  | ok (a : α)
  | err (e : ε)
  | panic
deriving DecidableEq

/-- `DatagramRecv<'a>`: the tagged union over the borrowed datagram. -/
inductive DatagramRecv (StunMsg : Type)
  | Stun (m : StunMsg)
  | Dtls (v : List Byte)
  | Rtp (v : List Byte)
  | Rtcp (v : List Byte)
deriving DecidableEq

/-- The `MultiplexKind` a `DatagramRecv` variant corresponds to. -/
def DatagramRecv.kind {StunMsg : Type} : DatagramRecv StunMsg → MultiplexKind
  | .Stun _ => MultiplexKind.Stun
  | .Dtls _ => MultiplexKind.Dtls
  | .Rtp _ => MultiplexKind.Rtp
  | .Rtcp _ => MultiplexKind.Rtcp

/-- `DatagramRecv::try_from(value: &[u8])`: classify, then wrap.  For `Stun`
it delegates to `StunMessage::parse` (here the parameter `stunParse`); for
the other kinds it wraps the whole input slice unmodified. -/
def datagramRecvTryFrom {StunMsg StunErr : Type}
    (stunParse : List Byte → Except StunErr StunMsg) (value : List Byte) :
    RResult (NetError StunErr) (DatagramRecv StunMsg) :=
  match multiplexKindTryFrom value with
  | MKResult.panic => RResult.panic
  | MKResult.unrecognized => RResult.err NetError.Io
  | MKResult.ok k =>
    match k with
    | MultiplexKind.Stun =>
      match stunParse value with
      | Except.ok m => RResult.ok (DatagramRecv.Stun m)
      | Except.error e => RResult.err (NetError.Stun e)
    | MultiplexKind.Dtls => RResult.ok (DatagramRecv.Dtls value)
    | MultiplexKind.Rtp => RResult.ok (DatagramRecv.Rtp value)
    | MultiplexKind.Rtcp => RResult.ok (DatagramRecv.Rtcp value)

/-- `DatagramSend`: newtype over `Vec<u8>`; `Deref` exposes the bytes. -/
structure DatagramSend where
  bytes : List Byte
deriving DecidableEq

/-- `Transmit`: an outgoing packet.  `SocketAddr` is an opaque value type of
the standard library, modelled by the type parameter `Addr`. -/
structure Transmit (Addr : Type) where
  source : Addr
  destination : Addr
  contents : DatagramSend

/-- `Receive<'a>`: received incoming data. -/
structure Receive (Addr StunMsg : Type) where
  source : Addr
  destination : Addr
  contents : DatagramRecv StunMsg

/-- `Receive::new(source, destination, buf)`: parse `buf`, attach the
addresses. -/
def receiveNew {Addr StunMsg StunErr : Type}
    (stunParse : List Byte → Except StunErr StunMsg)
    (source destination : Addr) (buf : List Byte) :
    RResult (NetError StunErr) (Receive Addr StunMsg) :=
  match datagramRecvTryFrom stunParse buf with
  | RResult.ok contents => RResult.ok ⟨source, destination, contents⟩
  | RResult.err e => RResult.err e
  | RResult.panic => RResult.panic

/-- `Receive::try_from(t: &Transmit)`: re-classify the outgoing payload
`&t.contents[..]` and copy the addresses over. -/
def receiveTryFromTransmit {Addr StunMsg StunErr : Type}
    (stunParse : List Byte → Except StunErr StunMsg) (t : Transmit Addr) :
    RResult (NetError StunErr) (Receive Addr StunMsg) :=
  match datagramRecvTryFrom stunParse t.contents.bytes with
  | RResult.ok contents => RResult.ok ⟨t.source, t.destination, contents⟩
  | RResult.err e => RResult.err e
  | RResult.panic => RResult.panic

/-! ## Claims about the classifier -/

/-- C1, counterexample: on the empty slice the classifier does NOT return
the unrecognized-datagram error — it panics, because `value[0]` is evaluated
before any length check. -/
theorem C1_empty_not_unrecognized :
    multiplexKindTryFrom [] ≠ MKResult.unrecognized ∧
    multiplexKindTryFrom [] = MKResult.panic := by
  decide

/-- C1 (amended): for the empty byte slice, classification panics with an
out-of-bounds index on `value[0]`; it does not return the
unrecognized-datagram error. -/
theorem C1_empty_panics : multiplexKindTryFrom [] = MKResult.panic := rfl

/-- C2: for every slice of length > 2 whose first byte is in [128, 191],
the second byte masked with 0x7F is the payload type, and classification
returns RTP if it is < 64, RTCP if it is in [64, 96), and RTP if ≥ 96. -/
theorem C2_rtp_rtcp_dispatch (b0 b1 : Byte) (rest : List Byte)
    (hb0 : 128 ≤ b0.val ∧ b0.val < 192)
    (hlen : (b0 :: b1 :: rest).length > 2) :
    (b1.val &&& 0x7f < 64 →
      multiplexKindTryFrom (b0 :: b1 :: rest) = MKResult.ok MultiplexKind.Rtp) ∧
    (64 ≤ b1.val &&& 0x7f ∧ b1.val &&& 0x7f < 96 →
      multiplexKindTryFrom (b0 :: b1 :: rest) = MKResult.ok MultiplexKind.Rtcp) ∧
    (96 ≤ b1.val &&& 0x7f →
      multiplexKindTryFrom (b0 :: b1 :: rest) = MKResult.ok MultiplexKind.Rtp) := by
  obtain ⟨hb0l, hb0u⟩ := hb0
  simp only [multiplexKindTryFrom, List.length_cons]
  rw [if_neg (by omega), if_neg (by omega), if_pos (by simpa using ⟨hb0l, hb0u, by simpa using hlen⟩)]
  refine ⟨fun h => by rw [if_pos h], fun h => ?_, fun h => ?_⟩
  · rw [if_neg (by omega), if_pos ⟨h.1, h.2⟩]
  · rw [if_neg (by omega), if_neg (by omega)]

/-- C2 witness: concrete instances of the three branches. -/
theorem C2_rtp_rtcp_dispatch_witness :
    multiplexKindTryFrom [(0x80 : Byte), 0x60, 0] = MKResult.ok MultiplexKind.Rtp ∧
    multiplexKindTryFrom [(0x80 : Byte), 0x4A, 0] = MKResult.ok MultiplexKind.Rtcp := by
  refine ⟨(C2_rtp_rtcp_dispatch 0x80 0x60 [0] (by decide) (by decide)).2.2 (by decide),
    (C2_rtp_rtcp_dispatch 0x80 0x4A [0] (by decide) (by decide)).2.1 (by decide)⟩

/-- C3: every slice of length ≥ 20 whose first byte is 0 or 1 classifies as
STUN. -/
theorem C3_stun (b0 : Byte) (rest : List Byte) (hb0 : b0.val < 2)
    (hlen : (b0 :: rest).length ≥ 20) :
    multiplexKindTryFrom (b0 :: rest) = MKResult.ok MultiplexKind.Stun := by
  simp only [multiplexKindTryFrom]
  rw [if_pos ⟨hb0, hlen⟩]

/-- C3 witness: a 20-byte slice starting with 0. -/
theorem C3_stun_witness :
    multiplexKindTryFrom (List.replicate 20 (0 : Byte)) = MKResult.ok MultiplexKind.Stun :=
  C3_stun 0 (List.replicate 19 0) (by decide) (by decide)

/-- C4: every non-empty slice whose first byte is in [20, 63] classifies as
DTLS, regardless of the slice's length. -/
theorem C4_dtls (b0 : Byte) (rest : List Byte) (hb0 : 20 ≤ b0.val ∧ b0.val < 64) :
    multiplexKindTryFrom (b0 :: rest) = MKResult.ok MultiplexKind.Dtls := by
  simp only [multiplexKindTryFrom]
  rw [if_neg (by omega), if_pos hb0]

/-- C4 witness: the one-byte slice [0x16]. -/
theorem C4_dtls_witness :
    multiplexKindTryFrom [(0x16 : Byte)] = MKResult.ok MultiplexKind.Dtls :=
  C4_dtls 0x16 [] (by decide)

/-- C5: every non-empty slice whose first byte falls in [2, 19], [64, 127]
or [192, 255], every slice with first byte < 2 but length < 20, and every
slice with first byte in [128, 191] but length ≤ 2, classifies as the
unrecognized-datagram error — no other outcome is possible. -/
theorem C5_unrecognized (b0 : Byte) (rest : List Byte)
    (h : (2 ≤ b0.val ∧ b0.val < 20) ∨ (64 ≤ b0.val ∧ b0.val < 128) ∨ 192 ≤ b0.val ∨
      (b0.val < 2 ∧ (b0 :: rest).length < 20) ∨
      (128 ≤ b0.val ∧ b0.val < 192 ∧ (b0 :: rest).length ≤ 2)) :
    multiplexKindTryFrom (b0 :: rest) = MKResult.unrecognized := by
  have hb := b0.isLt
  simp only [multiplexKindTryFrom, List.length_cons] at *
  rw [if_neg (by omega), if_neg (by omega), if_neg (by omega)]

/-- C5 witness: the one-byte slice [0x0A] (first byte in the gap [2, 19]). -/
theorem C5_unrecognized_witness :
    multiplexKindTryFrom [(0x0A : Byte)] = MKResult.unrecognized :=
  C5_unrecognized 0x0A [] (by decide)

/-! ## Claims about the typed view constructor and the received-packet path -/

/-- Helper: a successful `DatagramRecv::try_from` carries exactly the
`MultiplexKind` the classifier assigned to the input bytes. -/
theorem datagramRecvTryFrom_kind {StunMsg StunErr : Type}
    (stunParse : List Byte → Except StunErr StunMsg) (value : List Byte)
    (d : DatagramRecv StunMsg)
    (h : datagramRecvTryFrom stunParse value = RResult.ok d) :
    multiplexKindTryFrom value = MKResult.ok d.kind := by
  unfold datagramRecvTryFrom at h
  rcases hmk : multiplexKindTryFrom value with k | _ | _ <;> rw [hmk] at h
  · rcases k with _ | _ | _ | _
    · rcases hs : stunParse value with e | m <;> rw [hs] at h <;> cases h
      rfl
    · cases h
      rfl
    · cases h
      rfl
    · cases h
      rfl
  · cases h
  · cases h

/-- Helper: a successful `Receive::try_from(&Transmit)` carries exactly the
`DatagramRecv` parsed from the transmit's payload bytes. -/
theorem receiveTryFromTransmit_contents {Addr StunMsg StunErr : Type}
    (stunParse : List Byte → Except StunErr StunMsg) (t : Transmit Addr)
    (r : Receive Addr StunMsg)
    (h : receiveTryFromTransmit stunParse t = RResult.ok r) :
    datagramRecvTryFrom stunParse t.contents.bytes = RResult.ok r.contents := by
  unfold receiveTryFromTransmit at h
  rcases hD : datagramRecvTryFrom stunParse t.contents.bytes with c | e | _ <;>
    rw [hD] at h
  · cases h
    rfl
  · cases h
  · cases h

/-- C6: classifying a payload `P` through the received-packet path of an
outgoing packet (`Receive::try_from(&Transmit)` over the `Transmit`'s
contents) gives exactly the outcome of classifying `P` directly
(`Receive::new` / `DatagramRecv::try_from` on the same bytes), and any
successful outcome carries the `MultiplexKind` that direct classification
assigns to `P` — for every STUN parser. -/
theorem C6_transmit_roundtrip {Addr StunMsg StunErr : Type}
    (stunParse : List Byte → Except StunErr StunMsg)
    (src dst : Addr) (P : List Byte) :
    receiveTryFromTransmit stunParse ⟨src, dst, ⟨P⟩⟩ =
      receiveNew stunParse src dst P ∧
    (∀ r : Receive Addr StunMsg,
      receiveTryFromTransmit stunParse ⟨src, dst, ⟨P⟩⟩ = RResult.ok r →
      multiplexKindTryFrom P = MKResult.ok r.contents.kind) := by
  constructor
  · rfl
  · intro r hr
    exact datagramRecvTryFrom_kind stunParse P r.contents
      (receiveTryFromTransmit_contents stunParse _ r hr)

/-- C6 witness: a DTLS payload through the Transmit path, with a parser that
always fails (the kind does not depend on it). -/
theorem C6_transmit_roundtrip_witness :
    receiveTryFromTransmit (fun _ => Except.error () : List Byte → Except Unit Unit)
        (Transmit.mk () () (DatagramSend.mk [(0x16 : Byte)])) =
      receiveNew (fun _ => Except.error () : List Byte → Except Unit Unit)
        () () [(0x16 : Byte)] ∧
    multiplexKindTryFrom [(0x16 : Byte)] = MKResult.ok MultiplexKind.Dtls :=
  ⟨(C6_transmit_roundtrip (fun _ => Except.error () : List Byte → Except Unit Unit)
      () () [(0x16 : Byte)]).1,
    (C6_transmit_roundtrip (fun _ => Except.error () : List Byte → Except Unit Unit)
      () () [(0x16 : Byte)]).2
      (Receive.mk () () (DatagramRecv.Dtls [(0x16 : Byte)])) rfl⟩

/-- C7: whenever classification selects Dtls, Rtp or Rtcp, the resulting
`DatagramRecv` variant wraps exactly the entire original input slice,
unmodified. -/
theorem C7_zero_copy {StunMsg StunErr : Type}
    (stunParse : List Byte → Except StunErr StunMsg) (value v : List Byte) :
    (datagramRecvTryFrom stunParse value = RResult.ok (DatagramRecv.Dtls v) →
      v = value) ∧
    (datagramRecvTryFrom stunParse value = RResult.ok (DatagramRecv.Rtp v) →
      v = value) ∧
    (datagramRecvTryFrom stunParse value = RResult.ok (DatagramRecv.Rtcp v) →
      v = value) := by
  refine ⟨fun h => ?_, fun h => ?_, fun h => ?_⟩
  all_goals (
    unfold datagramRecvTryFrom at h;
    rcases hmk : multiplexKindTryFrom value with k | _ | _ <;> rw [hmk] at h
    · rcases k with _ | _ | _ | _
      · rcases hs : stunParse value with m | e <;> rw [hs] at h <;> cases h
      · cases h <;> rfl
      · cases h <;> rfl
      · cases h <;> rfl
    · cases h
    · cases h)

/-- C7 witness: the Dtls conjunct at the one-byte slice [0x16]. -/
theorem C7_zero_copy_witness : ([(0x16 : Byte)] : List Byte) = [(0x16 : Byte)] :=
  (C7_zero_copy (fun _ => Except.error () : List Byte → Except Unit Unit)
    [(0x16 : Byte)] [(0x16 : Byte)]).1 rfl

/-- C8, counterexample: classification is not total over ALL byte patterns —
on the empty slice it panics, returning neither a kind nor the
unrecognized-datagram error. -/
theorem C8_not_total_on_empty :
    ¬ (∀ value : List Byte,
        (∃ k, multiplexKindTryFrom value = MKResult.ok k) ∨
        multiplexKindTryFrom value = MKResult.unrecognized) := by
  intro h
  rcases h [] with ⟨k, hk⟩ | hu
  · cases hk
  · cases hu

/-- C8 (amended): classification is a deterministic, side-effect-free
function of the input bytes — equal slices always classify equally — and it
is total (a kind or the single unrecognized-datagram error) over all
NON-EMPTY byte slices; on the empty slice it panics. -/
theorem C8_deterministic_total (value w : List Byte) (hw : w = value)
    (hne : value ≠ []) :
    multiplexKindTryFrom w = multiplexKindTryFrom value ∧
    ((∃ k, multiplexKindTryFrom value = MKResult.ok k) ∨
      multiplexKindTryFrom value = MKResult.unrecognized) := by
  refine ⟨by rw [hw], ?_⟩
  rcases value with _ | ⟨b0, _ | ⟨b1, rest⟩⟩
  · exact absurd rfl hne
  · simp only [multiplexKindTryFrom, List.length_cons, List.length_nil]
    rw [if_neg (by omega)]
    by_cases c2 : b0.val ≥ 20 ∧ b0.val < 64
    · rw [if_pos c2]
      exact Or.inl ⟨_, rfl⟩
    · rw [if_neg c2, if_neg (by omega)]
      exact Or.inr rfl
  · simp only [multiplexKindTryFrom, List.length_cons]
    by_cases c1 : b0.val < 2 ∧ rest.length + 1 + 1 ≥ 20
    · rw [if_pos c1]
      exact Or.inl ⟨_, rfl⟩
    · rw [if_neg c1]
      by_cases c2 : b0.val ≥ 20 ∧ b0.val < 64
      · rw [if_pos c2]
        exact Or.inl ⟨_, rfl⟩
      · rw [if_neg c2]
        by_cases c3 : b0.val ≥ 128 ∧ b0.val < 192 ∧ rest.length + 1 + 1 > 2
        · rw [if_pos c3]
          by_cases c4 : b1.val &&& 0x7f < 64
          · rw [if_pos c4]
            exact Or.inl ⟨_, rfl⟩
          · rw [if_neg c4]
            by_cases c5 : b1.val &&& 0x7f ≥ 64 ∧ b1.val &&& 0x7f < 96
            · rw [if_pos c5]
              exact Or.inl ⟨_, rfl⟩
            · rw [if_neg c5]
              exact Or.inl ⟨_, rfl⟩
        · rw [if_neg c3]
          exact Or.inr rfl

/-- C8 witness: determinism and totality at the slice [0x16]. -/
theorem C8_deterministic_total_witness :
    multiplexKindTryFrom [(0x16 : Byte)] = multiplexKindTryFrom [(0x16 : Byte)] ∧
    ((∃ k, multiplexKindTryFrom [(0x16 : Byte)] = MKResult.ok k) ∨
      multiplexKindTryFrom [(0x16 : Byte)] = MKResult.unrecognized) :=
  C8_deterministic_total [0x16] [0x16] rfl (by decide)

/-- C9: the classification outcome depends only on the slice's length, its
first byte, and — only when the first byte is in [128, 191] and the length
exceeds 2 — its second byte: two non-empty slices agreeing on those data
classify identically, whatever their remaining bytes. -/
theorem C9_only_first_two_bytes (xs ys : List Byte)
    (hx : xs ≠ []) (hy : ys ≠ [])
    (hlen : xs.length = ys.length)
    (h0 : xs.head? = ys.head?)
    (h1 : ∀ b0, xs.head? = some b0 → 128 ≤ b0.val → b0.val < 192 →
      xs.length > 2 → xs.get? 1 = ys.get? 1) :
    multiplexKindTryFrom xs = multiplexKindTryFrom ys := by
  rcases xs with _ | ⟨a, xs'⟩
  · exact absurd rfl hx
  rcases ys with _ | ⟨b, ys'⟩
  · exact absurd rfl hy
  simp only [List.head?_cons, Option.some.injEq] at h0
  subst h0
  simp only [List.length_cons] at hlen
  by_cases hbr : a.val ≥ 128 ∧ a.val < 192 ∧ xs'.length + 1 > 2
  · rcases xs' with _ | ⟨x1, xs''⟩
    · exfalso
      simp only [List.length_nil] at hbr
      omega
    rcases ys' with _ | ⟨y1, ys''⟩
    · exfalso
      simp only [List.length_cons, List.length_nil] at hlen
      omega
    have h2 : x1 = y1 := by
      have := h1 a rfl hbr.1 hbr.2.1
        (by simp only [List.length_cons] at hbr ⊢; omega)
      simp only [List.get?_cons_succ, List.get?_cons_zero,
        Option.some.injEq] at this
      exact this
    subst h2
    simp only [List.length_cons] at hlen
    simp only [multiplexKindTryFrom, List.length_cons, hlen]
  · have hbr' : ¬(a.val ≥ 128 ∧ a.val < 192 ∧ ys'.length + 1 > 2) := by omega
    simp only [multiplexKindTryFrom, List.length_cons, hlen]
    by_cases c1 : a.val < 2 ∧ ys'.length + 1 ≥ 20
    · rw [if_pos c1, if_pos c1]
    · rw [if_neg c1, if_neg c1]
      by_cases c2 : a.val ≥ 20 ∧ a.val < 64
      · rw [if_pos c2, if_pos c2]
      · rw [if_neg c2, if_neg c2, if_neg hbr', if_neg hbr']

/-- C9 witness: slices [0x80, 0x60, 0x00] and [0x80, 0x60, 0xFF] differ only
in the third byte and classify identically. -/
theorem C9_only_first_two_bytes_witness :
    multiplexKindTryFrom [(0x80 : Byte), 0x60, 0x00] =
      multiplexKindTryFrom [(0x80 : Byte), 0x60, 0xFF] :=
  C9_only_first_two_bytes [0x80, 0x60, 0x00] [0x80, 0x60, 0xFF]
    (by decide) (by decide) (by decide) (by decide)
    (fun b0 h _ _ _ => by cases h; decide)

/-- C10: constructing a `Receive` leaves the addresses unchanged:
`Receive::new` stores the supplied source and destination verbatim, and
`Receive::try_from(&Transmit)` copies the `Transmit`'s source and
destination fields verbatim. -/
theorem C10_addresses_verbatim {Addr StunMsg StunErr : Type}
    (stunParse : List Byte → Except StunErr StunMsg)
    (src dst : Addr) (buf : List Byte) (t : Transmit Addr) :
    (∀ r : Receive Addr StunMsg,
      receiveNew stunParse src dst buf = RResult.ok r →
      r.source = src ∧ r.destination = dst) ∧
    (∀ r : Receive Addr StunMsg,
      receiveTryFromTransmit stunParse t = RResult.ok r →
      r.source = t.source ∧ r.destination = t.destination) := by
  constructor
  · intro r hr
    unfold receiveNew at hr
    rcases hD : datagramRecvTryFrom stunParse buf with c | e | _ <;> rw [hD] at hr
    · cases hr
      exact ⟨rfl, rfl⟩
    · cases hr
    · cases hr
  · intro r hr
    unfold receiveTryFromTransmit at hr
    rcases hD : datagramRecvTryFrom stunParse t.contents.bytes with c | e | _ <;>
      rw [hD] at hr
    · cases hr
      exact ⟨rfl, rfl⟩
    · cases hr
    · cases hr

/-- C10 witness: both conjuncts at a concrete DTLS datagram with `Nat`
addresses. -/
theorem C10_addresses_verbatim_witness :
    (((Receive.mk 1 2 (DatagramRecv.Dtls [(0x16 : Byte)]) :
        Receive Nat Unit)).source = (1 : Nat) ∧
      ((Receive.mk 1 2 (DatagramRecv.Dtls [(0x16 : Byte)]) :
        Receive Nat Unit)).destination = (2 : Nat)) ∧
    (((Receive.mk 1 2 (DatagramRecv.Dtls [(0x16 : Byte)]) :
        Receive Nat Unit)).source =
        (Transmit.mk (1 : Nat) 2 (DatagramSend.mk [(0x16 : Byte)])).source ∧
      ((Receive.mk 1 2 (DatagramRecv.Dtls [(0x16 : Byte)]) :
        Receive Nat Unit)).destination =
        (Transmit.mk (1 : Nat) 2 (DatagramSend.mk [(0x16 : Byte)])).destination) :=
  ⟨(C10_addresses_verbatim (fun _ => Except.error () : List Byte → Except Unit Unit)
      1 2 [(0x16 : Byte)]
      (Transmit.mk 1 2 (DatagramSend.mk [(0x16 : Byte)]))).1
      (Receive.mk 1 2 (DatagramRecv.Dtls [(0x16 : Byte)])) rfl,
    (C10_addresses_verbatim (fun _ => Except.error () : List Byte → Except Unit Unit)
      1 2 [(0x16 : Byte)]
      (Transmit.mk 1 2 (DatagramSend.mk [(0x16 : Byte)]))).2
      (Receive.mk 1 2 (DatagramRecv.Dtls [(0x16 : Byte)])) rfl⟩
